import Mathlib

/-!
Shallow embedding of the SmartIntake triage session lifecycle engine
(source files: models.py, logic.py, app.py).

Modelling conventions:
* Timestamps are abstract clock values in minutes (Nat); the SQL comparison
  datetime(last_activity) < datetime(now, -K minutes) becomes
  last_activity + K < now, and datetime.utcnow() / datetime.now() both become
  the current clock value passed in as an argument.
* A session row together with its message log is modelled as one ChatSession
  record; db_save_message appends to the log and sets last_activity (as the
  UPDATE in logic.py does), and each transition function below is the net
  effect of the corresponding Python function on that record.
* Python str.strip / str.lower / str.upper / substring containment are
  modelled character-wise on String.data.
* The Gemini summarization collaborator is an external call; its resulting
  text is passed as an explicit argument summaryText.
-/

namespace SmartIntake

/-- Lifecycle states of a consultation (models.py, class ChatState). -/
inductive ChatState
  | INTAKE
  | WAITING_FOR_NURSE
  | NURSE_ACTIVE
  | URGENT
  | INACTIVE
  | CLOSED
  | COMPLETED
deriving DecidableEq, Repr

/-- The stored enum value of each state (models.py, ChatState values). -/
def ChatState.value : ChatState → String
  | .INTAKE => "intake"
  | .WAITING_FOR_NURSE => "waiting_for_nurse"
  | .NURSE_ACTIVE => "nurse_active"
  | .URGENT => "urgent"
  | .INACTIVE => "inactive"
  | .CLOSED => "closed"
  | .COMPLETED => "completed"

/-- Python str.strip on a character list: drop whitespace at both ends. -/
def pyStripChars (l : List Char) : List Char :=
  ((l.dropWhile Char.isWhitespace).reverse.dropWhile Char.isWhitespace).reverse

/-- Python str.strip. -/
def pyStrip (s : String) : String :=
  String.mk (pyStripChars s.data)

/-- Python str.lower (ASCII-faithful). -/
def pyLower (s : String) : String :=
  String.mk (s.data.map Char.toLower)

/-- Python str.upper (ASCII-faithful). -/
def pyUpper (s : String) : String :=
  String.mk (s.data.map Char.toUpper)

/-- Does the second list start with the first one? -/
def prefixMatch : List Char → List Char → Bool
  | [], _ => true
  | _ :: _, [] => false
  | a :: as, b :: bs => a == b && prefixMatch as bs

/-- Does the needle occur as a contiguous run of the haystack? -/
def subMatch (needle : List Char) : List Char → Bool
  | [] => prefixMatch needle []
  | c :: t => prefixMatch needle (c :: t) || subMatch needle t

/-- Python substring containment: needle in hay. -/
def strContains (hay needle : String) : Bool :=
  subMatch needle.data hay.data

/-- An apostrophe character, built numerically. -/
def apos : Char := Char.ofNat 39

/-- The red-flag keyword spelled with an apostrophe in app.py. -/
def cannotBreatheFlag : String := "can" ++ apos.toString ++ "t breathe"

/-- The fixed urgent keyword list of app.py, beneficiary_send. -/
def red_flags : List String :=
  ["chest pain", "shortness of breath", cannotBreatheFlag, "severe bleeding",
   "unconscious", "stroke", "heart attack"]

/-- Escalation policy of app.py: any red flag contained in the lowered
message is sufficient. -/
def hasRedFlag (message : String) : Bool :=
  red_flags.any (fun flag => strContains (pyLower message) flag)

/-- The fixed ordered question schema of models.py: (id, question) pairs. -/
def INTAKE_SCHEMA : List (String × String) :=
  [("chief_complaint", "What is your main issue today?"),
   ("location", "Where is the problem located?"),
   ("onset", "When did it start?"),
   ("severity", "How severe is it from 1 to 10?"),
   ("relieving_factors", "What makes it better?"),
   ("aggravating_factors", "What makes it worse?"),
   ("fever", "Have you had a fever?"),
   ("allergy", "Are you allergic to anything?"),
   ("medications", "What medications are you currently taking?"),
   ("conditions", "Any chronic conditions?"),
   ("prior_contact", "Have you contacted us about this before?")]

/-- A chat transcript entry (models.py, Message). -/
structure Message where
  role : String
  content : String
  timestamp : Nat
  phase : String
deriving DecidableEq, Repr

/-- Intake progress embedded in a session (models.py, IntakeState); the
Python answers dict is an association list in insertion order. -/
structure IntakeState where
  current_index : Nat := 0
  answers : List (String × String) := []
  completed : Bool := false
deriving DecidableEq, Repr

/-- A session row together with its message log (models.py, ChatSession). -/
structure ChatSession where
  session_id : String
  user_email : String
  state : ChatState := .INTAKE
  created_at : Nat := 0
  last_activity : Nat := 0
  messages : List Message := []
  intake : IntakeState := {}
  summary : Option String := none
  is_read : Bool := false
  nurse_joined : Bool := false
  was_urgent : Bool := false
deriving DecidableEq, Repr

/-- Python dict assignment d[k] = v on an association list: overwrite in
place if the key exists, else append. -/
def dictInsert (k v : String) : List (String × String) → List (String × String)
  | [] => [(k, v)]
  | (k1, v1) :: t => if k1 = k then (k, v) :: t else (k1, v1) :: dictInsert k v t

/-- An assistant message in the system phase (logic.py, system_message). -/
def systemMessage (now : Nat) (text : String) : Message :=
  { role := "assistant", content := text, timestamp := now, phase := "system" }

/-- logic.py db_save_message: insert the message and set the session row
field last_activity to the current time, unconditionally. -/
def db_save_message (now : Nat) (m : Message) (s : ChatSession) : ChatSession :=
  { s with messages := s.messages ++ [m], last_activity := now }

/-- logic.py urgent_bypass: force URGENT, set was_urgent, append notice. -/
def urgent_bypass (now : Nat) (s : ChatSession) : ChatSession :=
  db_save_message now
    (systemMessage now "Your message suggests a potentially urgent condition. A nurse has been notified immediately.")
    { s with state := .URGENT, was_urgent := true }

/-- logic.py manual_emergency_escalation: force URGENT (no precondition),
set was_urgent, append the SOS notice. -/
def manual_emergency_escalation (now : Nat) (s : ChatSession) : ChatSession :=
  db_save_message now
    (systemMessage now "Emergency button pressed. A nurse has been notified immediately.")
    { s with state := .URGENT, was_urgent := true }

/-- logic.py nurse_joins: no-op unless WAITING_FOR_NURSE or URGENT; from
WAITING_FOR_NURSE move to NURSE_ACTIVE, from URGENT only set the flag. -/
def nurse_joins (now : Nat) (s : ChatSession) : ChatSession :=
  if s.state ≠ .WAITING_FOR_NURSE ∧ s.state ≠ .URGENT then s
  else
    let s1 :=
      if s.state = .WAITING_FOR_NURSE then
        { s with state := .NURSE_ACTIVE, nurse_joined := true }
      else
        { s with nurse_joined := true }
    db_save_message now (systemMessage now "A nurse has joined your case.") s1

/-- logic.py close_session: unconditionally set CLOSED and append the
closing notice. -/
def close_session (now : Nat) (s : ChatSession) : ChatSession :=
  db_save_message now (systemMessage now "This session has been closed.")
    { s with state := .CLOSED }

/-- logic.py complete_session: reject notes whose stripped length is under
20 characters, else set COMPLETED and append the completion message. -/
def complete_session (now : Nat) (nurse_email completion_note : String)
    (s : ChatSession) : Option ChatSession :=
  if (pyStrip completion_note).length < 20 then none
  else some (db_save_message now
    { role := "assistant",
      content := "**Case Completed by Nurse " ++ nurse_email ++ "**" ++ "\n\n" ++ completion_note,
      timestamp := now, phase := "completion" }
    { s with state := .COMPLETED })

/-- Content of the timeout system message written by both sweep passes in
logic.py (both passes reuse the inactive text; the strftime clock rendering
is abstracted to the numeric clock value). -/
def timeoutContent (now : Nat) : String :=
  "This session became inactive at " ++ toString now ++
    " due to inactivity. You have 1 hour to resume before it closes permanently."

/-- Soft pass of logic.py db_cleanup_stale_sessions: a session in INTAKE,
WAITING_FOR_NURSE or NURSE_ACTIVE whose last_activity is more than 20
minutes old moves to INACTIVE, with a system message (which itself resets
last_activity via db_save_message). -/
def sweepSoft (now : Nat) (s : ChatSession) : ChatSession :=
  if (s.state = .INTAKE ∨ s.state = .WAITING_FOR_NURSE ∨ s.state = .NURSE_ACTIVE)
      ∧ s.state ≠ .URGENT ∧ s.last_activity + 20 < now then
    db_save_message now (systemMessage now (timeoutContent now))
      { s with state := .INACTIVE }
  else s

/-- Hard pass of logic.py db_cleanup_stale_sessions: an INACTIVE session
whose last_activity is more than 80 minutes old is permanently CLOSED, with
a system message. -/
def sweepHard (now : Nat) (s : ChatSession) : ChatSession :=
  if s.state = .INACTIVE ∧ s.last_activity + 80 < now then
    db_save_message now (systemMessage now (timeoutContent now))
      { s with state := .CLOSED }
  else s

/-- logic.py db_cleanup_stale_sessions, per-session effect: the soft pass
runs first, the hard pass then re-reads the updated rows. -/
def db_cleanup_stale_sessions (now : Nat) (s : ChatSession) : ChatSession :=
  sweepHard now (sweepSoft now s)

/-- logic.py reactivate_session: only INACTIVE sessions reactivate; past
the 80-minute grace window (measured from the stored last_activity) fail
with expired and no mutation; otherwise restore WAITING_FOR_NURSE when the
intake is completed (also clearing is_read) and INTAKE otherwise, and
append a resumption message. -/
def reactivate_session (now : Nat) (s : ChatSession) : (Bool × String) × ChatSession :=
  if s.state ≠ .INACTIVE then ((false, "not_found"), s)
  else if s.last_activity + 80 < now then ((false, "expired"), s)
  else
    let s1 :=
      if s.intake.completed then
        { s with state := .WAITING_FOR_NURSE, is_read := false }
      else
        { s with state := .INTAKE }
    ((true, "resumed"),
      db_save_message now
        (systemMessage now ("Session resumed at " ++ toString now ++ ". You may continue where you left off."))
        s1)

/-- logic.py complete_intake: only from INTAKE; store the generated summary,
mark the intake completed, move to WAITING_FOR_NURSE, clear is_read, append
the summary as a hidden message when non-empty, then the completion notice. -/
def complete_intake (now : Nat) (summaryText : String) (s : ChatSession) : ChatSession :=
  if s.state ≠ .INTAKE then s
  else
    let s1 := { s with state := .WAITING_FOR_NURSE,
                       intake := { s.intake with completed := true },
                       summary := some summaryText,
                       is_read := false }
    let s2 :=
      if summaryText = "" then s1
      else db_save_message now
        { role := "assistant", content := summaryText, timestamp := now, phase := "summary" } s1
    db_save_message now
      (systemMessage now "Thank you. Your intake is complete. A nurse will review your case shortly.")
      s2

/-- app.py beneficiary_send, lines 410-414: record the answer under the
current question id and advance the pointer, guarded by the bound check. -/
def answerQuestion (message : String) (i : IntakeState) : IntakeState :=
  if i.current_index < INTAKE_SCHEMA.length then
    { i with answers := dictInsert (INTAKE_SCHEMA.getD i.current_index ("", "")).1 message i.answers,
             current_index := i.current_index + 1 }
  else i

/-- app.py beneficiary_send, intake branch: red-flag check, else record the
answer; on reaching the schema length mark completed and finalize, else
append the next question. -/
def intake_step (now : Nat) (summaryText message : String) (s2 : ChatSession) : ChatSession :=
  if hasRedFlag message then urgent_bypass now s2
  else
    let s3 := { s2 with intake := answerQuestion message s2.intake }
    if INTAKE_SCHEMA.length ≤ s3.intake.current_index then
      complete_intake now summaryText { s3 with intake := { s3.intake with completed := true } }
    else
      db_save_message now
        { role := "assistant", content := (INTAKE_SCHEMA.getD s3.intake.current_index ("", "")).2,
          timestamp := now, phase := "intake" } s3

/-- app.py beneficiary_send after the reactivation check (lines 389-441):
persist the beneficiary message (phase intake during intake, chat
otherwise), clear is_read, then run the intake branch when the session is
in INTAKE with an uncompleted intake. -/
def sendCore (now : Nat) (summaryText message : String) (s1 : ChatSession) : ChatSession :=
  let user_msg : Message :=
    { role := "beneficiary", content := message, timestamp := now,
      phase := if s1.state = .INTAKE then "intake" else "chat" }
  let s2 : ChatSession := { db_save_message now user_msg s1 with is_read := false }
  if s2.state = .INTAKE ∧ s2.intake.completed = false then
    intake_step now summaryText message s2
  else s2

/-- app.py beneficiary_send: strip the form text and reject it when empty;
reactivate an INACTIVE session first (aborting unchanged when reactivation
fails); then proceed with the freshly re-read session. -/
def beneficiary_send (now : Nat) (summaryText raw : String) (s : ChatSession) : ChatSession :=
  let message := pyStrip raw
  if message = "" then s
  else if s.state = .INACTIVE ∧ ((reactivate_session now s).1.1 = false) then s
  else
    sendCore now summaryText message
      (if s.state = .INACTIVE then (reactivate_session now s).2 else s)

/-- app.py nurse_send: strip and reject empty text, else persist the nurse
message and clear is_read. -/
def nurse_send (now : Nat) (raw : String) (s : ChatSession) : ChatSession :=
  let message := pyStrip raw
  if message = "" then s
  else
    { db_save_message now
        { role := "nurse", content := message, timestamp := now, phase := "chat" } s
      with is_read := false }

/-- A parsed JSON value, as json.dumps and json.loads exchange them; the
stored intake_json column is modelled by the parse of its text. -/
inductive JVal
  | jstr (s : String)
  | jnat (n : Nat)
  | jbool (b : Bool)
  | jobj (entries : List (String × JVal))
  | jnull
deriving Repr

/-- Python dict.get on a parsed JSON object. -/
def jGet (entries : List (String × JVal)) (k : String) : Option JVal :=
  (entries.find? (fun p => p.1 == k)).map (fun p => p.2)

/-- Python intake_data.get(k, dflt) read as an integer; rows written by this
program always store an integer here. -/
def jGetNat (entries : List (String × JVal)) (k : String) (dflt : Nat) : Nat :=
  match jGet entries k with
  | some (.jnat n) => n
  | _ => dflt

/-- Python intake_data.get("answers", dict()) read back as the answers
mapping; rows written by this program always store string values. -/
def jAnswers : Option JVal → List (String × String)
  | some (.jobj entries) =>
      entries.map (fun p => (p.1, match p.2 with | .jstr v => v | _ => ""))
  | _ => []

/-- Python bool(...) on the value read for the completed field. -/
def jTruthy : Option JVal → Bool
  | some (.jstr v) => !(v == "")
  | some (.jnat n) => !(n == 0)
  | some (.jbool b) => b
  | some (.jobj entries) => !entries.isEmpty
  | some .jnull => false
  | none => false

/-- json.dumps(asdict(intake)) in dataclass field order (logic.py). -/
def intakeToJVal (i : IntakeState) : JVal :=
  .jobj [("current_index", .jnat i.current_index),
         ("answers", .jobj (i.answers.map (fun p => (p.1, .jstr p.2)))),
         ("completed", .jbool i.completed)]

/-- One row of the sessions table (database.py schema). -/
structure SessionRow where
  id : String
  user_email : String
  state : String
  summary : Option String
  is_read : Bool
  intake_json : JVal
  created_at : Nat
  last_activity : Nat
  nurse_joined : Bool
  was_urgent : Bool
deriving Repr

/-- logic.py db_create_session: insert the session row (state stored as its
enum value, intake as JSON, is_read 0, both timestamps now, the remaining
columns at their schema defaults) and the first message. -/
def db_create_session (now : Nat) (s : ChatSession) (first_message : Message) :
    SessionRow × List Message :=
  ({ id := s.session_id, user_email := s.user_email, state := s.state.value,
     summary := none, is_read := false, intake_json := intakeToJVal s.intake,
     created_at := now, last_activity := now, nurse_joined := false,
     was_urgent := false },
   [first_message])

/-- models.py ChatSession._coerce_state: strip, uppercase, look the result
up among the member names, defaulting to INTAKE. -/
def coerce_state (raw : String) : ChatState :=
  let u := pyUpper (pyStrip raw)
  if u = "INTAKE" then .INTAKE
  else if u = "WAITING_FOR_NURSE" then .WAITING_FOR_NURSE
  else if u = "NURSE_ACTIVE" then .NURSE_ACTIVE
  else if u = "URGENT" then .URGENT
  else if u = "INACTIVE" then .INACTIVE
  else if u = "CLOSED" then .CLOSED
  else if u = "COMPLETED" then .COMPLETED
  else .INTAKE

/-- models.py ChatSession.from_row: rehydrate a session from a row; the
intake JSON is read field-by-field with defaults and the messages list
starts empty (filled separately by db_get_messages). -/
def ChatSession.from_row (r : SessionRow) : ChatSession :=
  let entries : List (String × JVal) :=
    match r.intake_json with
    | .jobj es => es
    | _ => []
  { session_id := r.id, user_email := r.user_email,
    state := coerce_state r.state,
    created_at := r.created_at, last_activity := r.last_activity,
    summary := r.summary,
    intake := { current_index := jGetNat entries "current_index" 0,
                answers := jAnswers (jGet entries "answers"),
                completed := jTruthy (jGet entries "completed") },
    is_read := r.is_read, nurse_joined := r.nurse_joined,
    was_urgent := r.was_urgent, messages := [] }

/-- Chronological message order used by the messages table read. -/
abbrev timeLE (a b : Message) : Prop := a.timestamp ≤ b.timestamp

/-- logic.py db_get_messages: the stored messages of a session ordered by
timestamp ascending (ORDER BY modelled as a stable insertion sort). -/
def db_get_messages (msgs : List Message) : List Message :=
  List.insertionSort timeLE msgs

/-- The states excluded from the nurse dashboard query (logic.py,
get_nurse_dashboard_data). -/
def excludedB (s : ChatSession) : Bool :=
  match s.state with
  | .CLOSED => true
  | .COMPLETED => true
  | .INTAKE => true
  | _ => false

/-- The two-level sort key of the dashboard query: the CASE expression
putting URGENT first. -/
def tier (s : ChatSession) : Nat :=
  if s.state = .URGENT then 0 else 1

/-- The ORDER BY relation of the dashboard query: urgent tier first, then
created_at descending. -/
abbrev queueLE (a b : ChatSession) : Prop :=
  tier a < tier b ∨ (tier a = tier b ∧ b.created_at ≤ a.created_at)

instance : IsTotal ChatSession queueLE :=
  ⟨fun a b => by unfold queueLE; omega⟩

instance : IsTrans ChatSession queueLE :=
  ⟨fun a b c h1 h2 => by unfold queueLE at h1 h2 ⊢; omega⟩

/-- logic.py get_urgent_count: the number of sessions whose state is
URGENT. -/
def get_urgent_count (l : List ChatSession) : Nat :=
  l.countP (fun s => decide (s.state = ChatState.URGENT))

/-- logic.py get_nurse_dashboard_data: run the cleanup first, then count
urgent sessions and select the non-excluded sessions ordered by the
two-level key. -/
def get_nurse_dashboard_data (now : Nat) (l : List ChatSession) :
    List ChatSession × Nat :=
  let cleaned := l.map (db_cleanup_stale_sessions now)
  (List.insertionSort queueLE (cleaned.filter (fun s => !excludedB s)),
   get_urgent_count cleaned)

/-- A generic session record used as the base of concrete witnesses. -/
def baseSession : ChatSession :=
  { session_id := "sid-1", user_email := "pat@example.com" }

/-- A session already in the terminal CLOSED state. -/
def closedSession : ChatSession := { baseSession with state := .CLOSED }

/-- A session already in the terminal COMPLETED state. -/
def completedSession : ChatSession := { baseSession with state := .COMPLETED }

/-- A session in the URGENT state. -/
def urgentSession : ChatSession := { baseSession with state := .URGENT }

theorem db_save_message_state (now : Nat) (m : Message) (s : ChatSession) :
    (db_save_message now m s).state = s.state := rfl

theorem db_save_message_intake (now : Nat) (m : Message) (s : ChatSession) :
    (db_save_message now m s).intake = s.intake := rfl

theorem db_save_message_last_activity (now : Nat) (m : Message) (s : ChatSession) :
    (db_save_message now m s).last_activity = now := rfl

/-- Claim C1, counterexample: the code defines no terminal-state guard on
manual_emergency_escalation, so invoking it on a CLOSED session changes the
state (to URGENT) instead of being a no-op or a rejection. -/
theorem terminal_states_counterexample :
    closedSession.state = ChatState.CLOSED ∧
    (manual_emergency_escalation 0 closedSession).state ≠ closedSession.state ∧
    (manual_emergency_escalation 0 closedSession).state = ChatState.URGENT ∧
    (close_session 0 completedSession).state ≠ completedSession.state ∧
    Option.map ChatSession.state
        (complete_session 0 "n@e.com" "a long enough completion note" closedSession) =
      some ChatState.COMPLETED := by
  decide

/-- Claim C1, amended: on a session in CLOSED or COMPLETED, nurse_joins and
the timeout sweep are no-ops, but close_session still forces CLOSED (so it
moves COMPLETED to CLOSED), complete_session with a valid note still forces
COMPLETED (so it moves CLOSED to COMPLETED), and manual_emergency_escalation
and urgent_bypass force URGENT unconditionally. -/
theorem terminal_states_amended (now : Nat) (nurse_email note : String)
    (s : ChatSession)
    (h : s.state = ChatState.CLOSED ∨ s.state = ChatState.COMPLETED) :
    nurse_joins now s = s ∧
    db_cleanup_stale_sessions now s = s ∧
    (close_session now s).state = ChatState.CLOSED ∧
    (manual_emergency_escalation now s).state = ChatState.URGENT ∧
    (urgent_bypass now s).state = ChatState.URGENT ∧
    (20 ≤ (pyStrip note).length →
      Option.map ChatSession.state (complete_session now nurse_email note s) =
        some ChatState.COMPLETED) := by
  refine ⟨?_, ?_, rfl, rfl, rfl, ?_⟩
  · rcases h with h | h <;> simp [nurse_joins, h]
  · rcases h with h | h <;>
      simp [db_cleanup_stale_sessions, sweepSoft, sweepHard, h]
  · intro hlen
    unfold complete_session
    rw [if_neg (by omega)]
    rfl

/-- Witness for the amended claim C1 at a concrete closed session. -/
theorem terminal_states_amended_witness :
    nurse_joins 3 closedSession = closedSession ∧
    db_cleanup_stale_sessions 999 closedSession = closedSession ∧
    Option.map ChatSession.state
        (complete_session 3 "n@e.com" "a long enough completion note" closedSession) =
      some ChatState.COMPLETED := by
  have h := terminal_states_amended 3 "n@e.com" "a long enough completion note"
    closedSession (Or.inl rfl)
  have h2 := terminal_states_amended 999 "n@e.com" "a long enough completion note"
    closedSession (Or.inl rfl)
  exact ⟨h.1, h2.2.1, h.2.2.2.2.2 (by decide)⟩

/-- Claim C3, counterexample: a nurse joining an URGENT session does not
move it to NURSE_ACTIVE; the code keeps the state URGENT and only sets the
nurse_joined flag. -/
theorem nurse_joins_urgent_counterexample :
    urgentSession.state = ChatState.URGENT ∧
    (nurse_joins 0 urgentSession).state ≠ ChatState.NURSE_ACTIVE ∧
    (nurse_joins 0 urgentSession).state = ChatState.URGENT ∧
    (nurse_joins 0 urgentSession).nurse_joined = true := by
  decide

/-- Claim C3, amended: nurse_joins moves WAITING_FOR_NURSE to NURSE_ACTIVE
with the audit message; on an URGENT session it only sets nurse_joined and
appends the audit message, leaving the state URGENT; from any other state
it is a silent no-op. -/
theorem nurse_joins_amended (now : Nat) (s : ChatSession) :
    (s.state = ChatState.WAITING_FOR_NURSE →
      nurse_joins now s =
        db_save_message now (systemMessage now "A nurse has joined your case.")
          { s with state := .NURSE_ACTIVE, nurse_joined := true }) ∧
    (s.state = ChatState.URGENT →
      nurse_joins now s =
        db_save_message now (systemMessage now "A nurse has joined your case.")
          { s with nurse_joined := true }) ∧
    (s.state ≠ ChatState.WAITING_FOR_NURSE → s.state ≠ ChatState.URGENT →
      nurse_joins now s = s) := by
  refine ⟨fun h => ?_, fun h => ?_, fun h1 h2 => ?_⟩
  · simp [nurse_joins, h]
  · simp [nurse_joins, h]
  · simp [nurse_joins, h1, h2]

/-- Witness for the amended claim C3 at concrete sessions. -/
theorem nurse_joins_amended_witness :
    nurse_joins 4 urgentSession =
      db_save_message 4 (systemMessage 4 "A nurse has joined your case.")
        { urgentSession with nurse_joined := true } ∧
    nurse_joins 4 closedSession = closedSession := by
  exact ⟨(nurse_joins_amended 4 urgentSession).2.1 rfl,
    (nurse_joins_amended 4 closedSession).2.2 (by decide) (by decide)⟩

/-- Claim C5: the timeout sweep never touches an URGENT session (no state
change and no appended message, for any idle duration); whenever the soft
pass changes a session it was in INTAKE, WAITING_FOR_NURSE or NURSE_ACTIVE
and idle at least 20 minutes, and it becomes INACTIVE; whenever the hard
pass changes a session it was INACTIVE and idle more than 80 minutes, and
it becomes CLOSED. -/
theorem timeout_sweep_characterization (now : Nat) (s : ChatSession) :
    (s.state = ChatState.URGENT → db_cleanup_stale_sessions now s = s) ∧
    (sweepSoft now s ≠ s →
      (s.state = ChatState.INTAKE ∨ s.state = ChatState.WAITING_FOR_NURSE ∨
          s.state = ChatState.NURSE_ACTIVE) ∧
        20 ≤ now - s.last_activity ∧
        (sweepSoft now s).state = ChatState.INACTIVE) ∧
    (sweepHard now s ≠ s →
      s.state = ChatState.INACTIVE ∧ 80 < now - s.last_activity ∧
        (sweepHard now s).state = ChatState.CLOSED) := by
  refine ⟨fun h => ?_, fun h => ?_, fun h => ?_⟩
  · simp [db_cleanup_stale_sessions, sweepSoft, sweepHard, h]
  · by_cases hc : (s.state = ChatState.INTAKE ∨ s.state = ChatState.WAITING_FOR_NURSE ∨
        s.state = ChatState.NURSE_ACTIVE) ∧ s.state ≠ ChatState.URGENT ∧
        s.last_activity + 20 < now
    · refine ⟨hc.1, by omega, ?_⟩
      unfold sweepSoft
      rw [if_pos hc]
      rfl
    · unfold sweepSoft at h
      rw [if_neg hc] at h
      exact absurd rfl h
  · by_cases hc : s.state = ChatState.INACTIVE ∧ s.last_activity + 80 < now
    · refine ⟨hc.1, by omega, ?_⟩
      unfold sweepHard
      rw [if_pos hc]
      rfl
    · unfold sweepHard at h
      rw [if_neg hc] at h
      exact absurd rfl h

/-- Witness for claim C5: a very stale urgent session is untouched by the
sweep. -/
theorem timeout_sweep_characterization_witness :
    db_cleanup_stale_sessions 10000 urgentSession = urgentSession :=
  (timeout_sweep_characterization 10000 urgentSession).1 rfl

/-- Claim C8: a whitespace-only submission, by beneficiary or nurse, leaves
the session record entirely unchanged: no message, no intake advance, no
state change. -/
theorem empty_message_noop (now : Nat) (summaryText raw : String)
    (s : ChatSession) (h : pyStrip raw = "") :
    beneficiary_send now summaryText raw s = s ∧ nurse_send now raw s = s := by
  constructor
  · simp [beneficiary_send, h]
  · simp [nurse_send, h]

/-- Witness for claim C8 on a concrete whitespace message. -/
theorem empty_message_noop_witness :
    beneficiary_send 1 "sum" "   " baseSession = baseSession ∧
    nurse_send 1 "   " baseSession = baseSession :=
  empty_message_noop 1 "sum" "   " baseSession (by decide)

/-- A session idle in INTAKE since clock 0. -/
def idleIntakeSession : ChatSession :=
  { baseSession with state := .INTAKE, last_activity := 0 }

/-- An INACTIVE session with a completed intake, last active at clock 50. -/
def inactiveDoneSession : ChatSession :=
  { baseSession with
      state := .INACTIVE,
      last_activity := 50,
      intake := { current_index := 11, answers := [], completed := true } }

/-- Claim C2, counterexample: a session whose original activity was at
clock 0 is soft-timed out by the sweep at clock 21, and the system
message written by the sweep resets last_activity to 21; reactivation attempted at clock
85, more than 80 minutes after the original activity (spec Scenario D),
succeeds and mutates the state instead of failing with expired. -/
theorem reactivation_expiry_counterexample :
    (db_cleanup_stale_sessions 21 idleIntakeSession).state = ChatState.INACTIVE ∧
    idleIntakeSession.last_activity + 80 < 85 ∧
    (reactivate_session 85 (db_cleanup_stale_sessions 21 idleIntakeSession)).1 =
      (true, "resumed") ∧
    (reactivate_session 85 (db_cleanup_stale_sessions 21 idleIntakeSession)).2.state =
      ChatState.INTAKE := by
  decide

/-- Claim C2, amended: the 80-minute grace window of reactivate_session is
measured from the stored last_activity - which for a swept session is the
soft-timeout instant, not the activity that preceded it. Past that window
the call fails with expired and mutates nothing; within it the call
succeeds, restoring WAITING_FOR_NURSE when intake.completed and INTAKE
otherwise, and appending only the resumption message. -/
theorem reactivate_session_amended (now : Nat) (s : ChatSession)
    (h : s.state = ChatState.INACTIVE) :
    (s.last_activity + 80 < now →
      reactivate_session now s = ((false, "expired"), s)) ∧
    (now ≤ s.last_activity + 80 →
      (reactivate_session now s).1 = (true, "resumed") ∧
      (reactivate_session now s).2.state =
        (if s.intake.completed then ChatState.WAITING_FOR_NURSE
         else ChatState.INTAKE) ∧
      (reactivate_session now s).2.intake = s.intake ∧
      (reactivate_session now s).2.messages =
        s.messages ++ [systemMessage now
          ("Session resumed at " ++ toString now ++ ". You may continue where you left off.")]) := by
  constructor
  · intro hlate
    unfold reactivate_session
    rw [if_neg (by simp [h]), if_pos hlate]
  · intro hin
    unfold reactivate_session
    rw [if_neg (by simp [h]), if_neg (by omega)]
    by_cases hc : s.intake.completed = true <;>
      simp [hc, db_save_message]

/-- Witness for the amended claim C2 at a concrete inactive session, on
both sides of the grace window. -/
theorem reactivate_session_amended_witness :
    reactivate_session 131 inactiveDoneSession = ((false, "expired"), inactiveDoneSession) ∧
    (reactivate_session 100 inactiveDoneSession).1 = (true, "resumed") ∧
    (reactivate_session 100 inactiveDoneSession).2.state =
      (if inactiveDoneSession.intake.completed then ChatState.WAITING_FOR_NURSE
       else ChatState.INTAKE) := by
  have h1 := (reactivate_session_amended 131 inactiveDoneSession rfl).1 (by decide)
  have h2 := (reactivate_session_amended 100 inactiveDoneSession rfl).2 (by decide)
  exact ⟨h1, h2.1, h2.2.1⟩

/-- Claim C10: db_save_message always resets last_activity to the present
clock, whatever the role or phase of the message; consequently a session soft
timed out at clock now has last_activity = now, the hard pass cannot close
it for the following 80 minutes, and reactivation succeeds throughout that
window. -/
theorem save_message_resets_idle_clock :
    (∀ (now : Nat) (m : Message) (s : ChatSession),
      (db_save_message now m s).last_activity = now) ∧
    (∀ (now later : Nat) (s : ChatSession),
      (s.state = ChatState.INTAKE ∨ s.state = ChatState.WAITING_FOR_NURSE ∨
          s.state = ChatState.NURSE_ACTIVE) →
      s.last_activity + 20 < now → later ≤ now + 80 →
      (db_cleanup_stale_sessions now s).state = ChatState.INACTIVE ∧
      (db_cleanup_stale_sessions now s).last_activity = now ∧
      (db_cleanup_stale_sessions later (db_cleanup_stale_sessions now s)).state =
        ChatState.INACTIVE ∧
      (reactivate_session later (db_cleanup_stale_sessions now s)).1 =
        (true, "resumed")) := by
  refine ⟨fun now m s => rfl, fun now later s hstate hidle hwin => ?_⟩
  have hurg : s.state ≠ ChatState.URGENT := by
    rcases hstate with h | h | h <;> simp [h]
  have hclean : db_cleanup_stale_sessions now s =
      db_save_message now (systemMessage now (timeoutContent now))
        { s with state := .INACTIVE } := by
    unfold db_cleanup_stale_sessions sweepSoft
    rw [if_pos ⟨hstate, hurg, hidle⟩]
    unfold sweepHard
    rw [if_neg (by simp [db_save_message])]
  rw [hclean]
  refine ⟨?_, ?_, ?_, ?_⟩
  · simp [db_save_message]
  · simp [db_save_message]
  · unfold db_cleanup_stale_sessions sweepSoft
    rw [if_neg (by simp [db_save_message])]
    unfold sweepHard
    rw [if_neg (by simp [db_save_message]; omega)]
    simp [db_save_message]
  · unfold reactivate_session
    rw [if_neg (by simp [db_save_message]),
      if_neg (by simp [db_save_message]; omega)]

/-- Witness for claim C10 at a concrete message and concrete sweep times. -/
theorem save_message_resets_idle_clock_witness :
    (db_save_message 7 (systemMessage 7 "note") baseSession).last_activity = 7 ∧
    (db_cleanup_stale_sessions 21 idleIntakeSession).last_activity = 21 ∧
    (db_cleanup_stale_sessions 101 (db_cleanup_stale_sessions 21 idleIntakeSession)).state =
      ChatState.INACTIVE ∧
    (reactivate_session 101 (db_cleanup_stale_sessions 21 idleIntakeSession)).1 =
      (true, "resumed") := by
  have h := save_message_resets_idle_clock.2 21 101 idleIntakeSession
    (Or.inl rfl) (by decide) (by decide)
  exact ⟨save_message_resets_idle_clock.1 7 (systemMessage 7 "note") baseSession,
    h.2.1, h.2.2.1, h.2.2.2⟩

/-- A session three answers into intake, as in spec Scenario A. -/
def scenarioASession : ChatSession :=
  { baseSession with
      state := .INTAKE,
      intake := { current_index := 3,
                  answers := [("chief_complaint", "pain"),
                              ("location", "arm"),
                              ("onset", "today")],
                  completed := false } }

/-- Claim C6: a non-empty intake message containing an urgent keyword is
itself persisted, the session moves to URGENT with was_urgent set, a system
message is appended, and the intake record (answers and current_index) is
left exactly as it was. -/
theorem urgent_keyword_bypass (now : Nat) (summaryText raw : String)
    (s : ChatSession)
    (hstate : s.state = ChatState.INTAKE)
    (hcomp : s.intake.completed = false)
    (hne : pyStrip raw ≠ "")
    (hflag : hasRedFlag (pyStrip raw) = true) :
    beneficiary_send now summaryText raw s =
      { s with
          state := ChatState.URGENT,
          was_urgent := true,
          is_read := false,
          last_activity := now,
          messages := s.messages ++
            [{ role := "beneficiary", content := pyStrip raw,
               timestamp := now, phase := "intake" },
             systemMessage now "Your message suggests a potentially urgent condition. A nurse has been notified immediately."] } := by
  obtain ⟨sid, em, st, ca, la, ms, ik, su, ir, nj, wu⟩ := s
  obtain ⟨ci, ans, comp⟩ := ik
  dsimp only at hstate hcomp
  subst hstate
  subst hcomp
  simp [beneficiary_send, sendCore, intake_step, urgent_bypass,
    db_save_message, systemMessage, hne, hflag]

/-- Witness for claim C6: spec Scenario A, sending a chest-pain message
after three answers. -/
theorem urgent_keyword_bypass_witness :
    (beneficiary_send 5 "sum" "I have chest pain" scenarioASession).state =
      ChatState.URGENT ∧
    (beneficiary_send 5 "sum" "I have chest pain" scenarioASession).was_urgent = true ∧
    (beneficiary_send 5 "sum" "I have chest pain" scenarioASession).intake.current_index = 3 ∧
    (beneficiary_send 5 "sum" "I have chest pain" scenarioASession).intake.answers =
      scenarioASession.intake.answers ∧
    (beneficiary_send 5 "sum" "I have chest pain" scenarioASession).messages.length = 2 := by
  have h := urgent_keyword_bypass 5 "sum" "I have chest pain" scenarioASession
    rfl rfl (by decide) (by decide)
  rw [h]
  exact ⟨rfl, rfl, rfl, rfl, rfl⟩

theorem reactivate_session_keeps_intake (now : Nat) (s : ChatSession) :
    ((reactivate_session now s).2).intake = s.intake := by
  unfold reactivate_session
  split
  · rfl
  · split
    · rfl
    · by_cases hc : s.intake.completed = true <;> simp [hc, db_save_message]

theorem complete_intake_index (now : Nat) (t : String) (s : ChatSession) :
    (complete_intake now t s).intake.current_index = s.intake.current_index := by
  unfold complete_intake
  split
  · rfl
  · by_cases hsum : t = "" <;> simp [hsum, db_save_message]

theorem complete_intake_of_intake (now : Nat) (t : String) (s : ChatSession)
    (h : s.state = ChatState.INTAKE) :
    (complete_intake now t s).state = ChatState.WAITING_FOR_NURSE ∧
    (complete_intake now t s).intake.completed = true ∧
    (complete_intake now t s).intake.current_index = s.intake.current_index := by
  unfold complete_intake
  rw [if_neg (by simp [h])]
  by_cases hsum : t = "" <;> simp [hsum, db_save_message]

theorem intake_step_index (now : Nat) (t m : String) (s : ChatSession) :
    (intake_step now t m s).intake.current_index = s.intake.current_index ∨
    ((intake_step now t m s).intake.current_index = s.intake.current_index + 1 ∧
      s.intake.current_index < INTAKE_SCHEMA.length) := by
  unfold intake_step
  by_cases hfl : hasRedFlag m = true
  · rw [if_pos hfl]
    left
    rfl
  · rw [if_neg hfl]
    by_cases hidx : s.intake.current_index < INTAKE_SCHEMA.length
    · right
      refine ⟨?_, hidx⟩
      simp only [answerQuestion]
      rw [if_pos hidx]
      split
      · rw [complete_intake_index]
      · rfl
    · left
      simp only [answerQuestion]
      rw [if_neg hidx]
      split
      · rw [complete_intake_index]
      · rfl

theorem sendCore_index (now : Nat) (t m : String) (s1 : ChatSession) :
    (sendCore now t m s1).intake.current_index = s1.intake.current_index ∨
    ((sendCore now t m s1).intake.current_index = s1.intake.current_index + 1 ∧
      s1.intake.current_index < INTAKE_SCHEMA.length) := by
  simp only [sendCore]
  split
  all_goals split
  · exact intake_step_index now t m _
  · left
    rfl
  · exact intake_step_index now t m _
  · left
    rfl

theorem send_index_cases (now : Nat) (t raw : String) (s : ChatSession) :
    (beneficiary_send now t raw s).intake.current_index = s.intake.current_index ∨
    ((beneficiary_send now t raw s).intake.current_index = s.intake.current_index + 1 ∧
      s.intake.current_index < INTAKE_SCHEMA.length) := by
  simp only [beneficiary_send]
  by_cases h0 : pyStrip raw = ""
  · rw [if_pos h0]
    left
    rfl
  · rw [if_neg h0]
    by_cases h1 : s.state = ChatState.INACTIVE ∧ (reactivate_session now s).1.1 = false
    · rw [if_pos h1]
      left
      rfl
    · rw [if_neg h1]
      have hs1 : (if s.state = ChatState.INACTIVE then (reactivate_session now s).2 else s).intake
          = s.intake := by
        split
        · exact reactivate_session_keeps_intake now s
        · rfl
      rcases sendCore_index now t (pyStrip raw)
          (if s.state = ChatState.INACTIVE then (reactivate_session now s).2 else s) with
        h | ⟨h, hlt⟩
      · left
        rw [h, hs1]
      · right
        rw [h, hs1]
        exact ⟨rfl, hs1 ▸ hlt⟩

theorem send_index_bound (now : Nat) (t raw : String) (s : ChatSession)
    (h : s.intake.current_index ≤ INTAKE_SCHEMA.length) :
    (beneficiary_send now t raw s).intake.current_index ≤ INTAKE_SCHEMA.length := by
  rcases send_index_cases now t raw s with h1 | ⟨h1, h2⟩ <;> omega

theorem intake_step_completes (now : Nat) (t m : String) (s2 : ChatSession)
    (hst : s2.state = ChatState.INTAKE)
    (hflag : hasRedFlag m = false)
    (hidx : s2.intake.current_index + 1 = INTAKE_SCHEMA.length) :
    (intake_step now t m s2).intake.current_index = INTAKE_SCHEMA.length ∧
    (intake_step now t m s2).intake.completed = true ∧
    (intake_step now t m s2).state = ChatState.WAITING_FOR_NURSE := by
  obtain ⟨sid, em, st, ca, la, ms, ik, su, ir, nj, wu⟩ := s2
  obtain ⟨ci, ans, comp⟩ := ik
  dsimp only at hst hidx
  subst hst
  unfold intake_step
  rw [if_neg (by simp [hflag])]
  simp only [answerQuestion]
  have hlt : ci < INTAKE_SCHEMA.length := by omega
  rw [if_pos hlt]
  rw [if_pos (show INTAKE_SCHEMA.length ≤ ci + 1 by omega)]
  have hfin := complete_intake_of_intake now t
    { session_id := sid, user_email := em, state := .INTAKE, created_at := ca,
      last_activity := la, messages := ms,
      intake := { current_index := ci + 1,
                  answers := dictInsert (INTAKE_SCHEMA.getD ci ("", "")).1 m ans,
                  completed := true },
      summary := su, is_read := ir, nurse_joined := nj, was_urgent := wu } rfl
  refine ⟨?_, hfin.2.1, hfin.1⟩
  rw [hfin.2.2]
  show ci + 1 = INTAKE_SCHEMA.length
  omega

/-- The sendCore step on an uncompleted intake session answering its last
question. -/
theorem sendCore_completes (now : Nat) (t m : String) (s1 : ChatSession)
    (hst : s1.state = ChatState.INTAKE)
    (hcomp : s1.intake.completed = false)
    (hflag : hasRedFlag m = false)
    (hidx : s1.intake.current_index + 1 = INTAKE_SCHEMA.length) :
    (sendCore now t m s1).intake.current_index = INTAKE_SCHEMA.length ∧
    (sendCore now t m s1).intake.completed = true ∧
    (sendCore now t m s1).state = ChatState.WAITING_FOR_NURSE := by
  simp only [sendCore]
  rw [if_pos hst]
  rw [if_pos ⟨hst, hcomp⟩]
  exact intake_step_completes now t m _ hst hflag hidx

/-- A session at the last intake question (index 10 of 11). -/
def lastQuestionSession : ChatSession :=
  { baseSession with
      state := .INTAKE,
      intake := { current_index := 10, answers := [], completed := false } }

/-- Claim C7: one beneficiary submission never pushes current_index past
the schema length, so no sequence of submissions does; and the submission
that makes current_index reach the schema length (from intake, with no
urgent keyword) marks the intake completed and moves the session to
WAITING_FOR_NURSE. -/
theorem intake_index_invariant :
    (∀ (now : Nat) (t raw : String) (s : ChatSession),
      s.intake.current_index ≤ INTAKE_SCHEMA.length →
      (beneficiary_send now t raw s).intake.current_index ≤ INTAKE_SCHEMA.length) ∧
    (∀ (steps : List (Nat × String × String)) (s : ChatSession),
      s.intake.current_index ≤ INTAKE_SCHEMA.length →
      (steps.foldl (fun acc p => beneficiary_send p.1 p.2.1 p.2.2 acc) s).intake.current_index ≤
        INTAKE_SCHEMA.length) ∧
    (∀ (now : Nat) (t raw : String) (s : ChatSession),
      s.state = ChatState.INTAKE → s.intake.completed = false →
      pyStrip raw ≠ "" → hasRedFlag (pyStrip raw) = false →
      s.intake.current_index + 1 = INTAKE_SCHEMA.length →
      (beneficiary_send now t raw s).intake.current_index = INTAKE_SCHEMA.length ∧
      (beneficiary_send now t raw s).intake.completed = true ∧
      (beneficiary_send now t raw s).state = ChatState.WAITING_FOR_NURSE) := by
  refine ⟨send_index_bound, ?_, ?_⟩
  · intro steps
    induction steps with
    | nil => exact fun s h => h
    | cons p rest ih =>
        intro s h
        exact ih _ (send_index_bound p.1 p.2.1 p.2.2 s h)
  · intro now t raw s hst hcomp hne hflag hidx
    have hnin : s.state ≠ ChatState.INACTIVE := by rw [hst]; simp
    simp only [beneficiary_send]
    rw [if_neg hne, if_neg (by simp [hnin]), if_neg hnin]
    exact sendCore_completes now t (pyStrip raw) s hst hcomp hflag hidx

/-- Witness for claim C7: answering the last question completes the intake
and hands the session to the nurse queue. -/
theorem intake_index_invariant_witness :
    (beneficiary_send 5 "sum" "no prior contact" lastQuestionSession).intake.current_index =
      INTAKE_SCHEMA.length ∧
    (beneficiary_send 5 "sum" "no prior contact" lastQuestionSession).intake.completed = true ∧
    (beneficiary_send 5 "sum" "no prior contact" lastQuestionSession).state =
      ChatState.WAITING_FOR_NURSE :=
  intake_index_invariant.2.2 5 "sum" "no prior contact" lastQuestionSession
    rfl rfl (by decide) (by decide) (by decide)

/-- A waiting session created early but recently active. -/
def queueSessionA : ChatSession :=
  { baseSession with
      session_id := "a",
      state := .WAITING_FOR_NURSE,
      created_at := 1,
      last_activity := 10 }

/-- A waiting session created later but idle since clock 0. -/
def queueSessionB : ChatSession :=
  { baseSession with
      session_id := "b",
      state := .WAITING_FOR_NURSE,
      created_at := 2,
      last_activity := 0 }

/-- Claim C4, counterexample: the dashboard query orders each tier by
created_at descending, not by most recent activity descending: of two
waiting sessions, the one created later but idle longest is listed first,
in front of the recently active one. -/
theorem nurse_dashboard_counterexample :
    (get_nurse_dashboard_data 0 [queueSessionA, queueSessionB]).1 =
      [queueSessionB, queueSessionA] ∧
    queueSessionB.last_activity < queueSessionA.last_activity ∧
    ¬ List.Pairwise
        (fun a b => tier a < tier b ∨ (tier a = tier b ∧ b.last_activity ≤ a.last_activity))
        (get_nurse_dashboard_data 0 [queueSessionA, queueSessionB]).1 := by
  decide

theorem excludedB_false_iff (s : ChatSession) :
    excludedB s = false ↔
      (s.state = ChatState.WAITING_FOR_NURSE ∨ s.state = ChatState.NURSE_ACTIVE ∨
       s.state = ChatState.INACTIVE ∨ s.state = ChatState.URGENT) := by
  cases h : s.state <;> simp [excludedB, h]

/-- Claim C4, amended: after the sweep that the dashboard runs first, the
queue holds exactly the sessions in WAITING_FOR_NURSE, NURSE_ACTIVE,
INACTIVE or URGENT; it is ordered urgent tier first with ties in each tier
broken by created_at descending (not by last activity); and the urgent
count is the number of sessions currently in URGENT. -/
theorem nurse_dashboard_amended (now : Nat) (l : List ChatSession) :
    (∀ x, x ∈ (get_nurse_dashboard_data now l).1 ↔
      (x ∈ l.map (db_cleanup_stale_sessions now) ∧
        (x.state = ChatState.WAITING_FOR_NURSE ∨ x.state = ChatState.NURSE_ACTIVE ∨
         x.state = ChatState.INACTIVE ∨ x.state = ChatState.URGENT))) ∧
    List.Pairwise queueLE (get_nurse_dashboard_data now l).1 ∧
    (get_nurse_dashboard_data now l).2 =
      get_urgent_count (l.map (db_cleanup_stale_sessions now)) := by
  refine ⟨?_, ?_, rfl⟩
  · intro x
    simp only [get_nurse_dashboard_data, List.mem_insertionSort, List.mem_filter,
      Bool.not_eq_true', excludedB_false_iff]
  · have h := List.sorted_insertionSort queueLE
      ((l.map (db_cleanup_stale_sessions now)).filter (fun s => !excludedB s))
    simpa [get_nurse_dashboard_data, List.Sorted] using h

theorem coerce_state_value (st : ChatState) : coerce_state st.value = st := by
  cases st <;> decide

theorem jAnswers_round_trip (l : List (String × String)) :
    jAnswers (some (.jobj (l.map (fun p => (p.1, JVal.jstr p.2))))) = l := by
  induction l with
  | nil => rfl
  | cons p t ih => simp only [jAnswers, List.map_cons] at ih ⊢; simp [ih]

/-- logic.py db_update_session, restricted to the columns the engine ever
updates: each supplied value overwrites its column, enums stored by their
value and the intake record as JSON. -/
def db_update_session (r : SessionRow) (stateArg : Option ChatState)
    (intakeArg : Option IntakeState) (isReadArg : Option Bool) : SessionRow :=
  { r with
      state := match stateArg with | some st => st.value | none => r.state,
      intake_json := match intakeArg with | some i => intakeToJVal i | none => r.intake_json,
      is_read := match isReadArg with | some b => b | none => r.is_read }

/-- Claim C9: writing a session row with db_create_session (or overwriting
its state and intake columns with db_update_session) and re-reading it
through ChatSession.from_row yields the same state and the same intake
record (answers, current_index, completed); and re-reading a message log
through the timestamp-ordered db_get_messages returns exactly the
persisted sequence whenever its timestamps are non-decreasing in
persistence order, as the persistence contract requires. -/
theorem session_round_trip (now : Nat) (s : ChatSession) (first : Message)
    (msgs : List Message) (hmono : List.Pairwise timeLE msgs) :
    (ChatSession.from_row (db_create_session now s first).1).state = s.state ∧
    (ChatSession.from_row (db_create_session now s first).1).intake.answers =
      s.intake.answers ∧
    (ChatSession.from_row (db_create_session now s first).1).intake.current_index =
      s.intake.current_index ∧
    (ChatSession.from_row (db_create_session now s first).1).intake.completed =
      s.intake.completed ∧
    db_get_messages msgs = msgs ∧
    (∀ (r : SessionRow) (st : ChatState) (i : IntakeState) (b : Option Bool),
      (ChatSession.from_row (db_update_session r (some st) (some i) b)).state = st ∧
      (ChatSession.from_row (db_update_session r (some st) (some i) b)).intake.answers =
        i.answers) := by
  refine ⟨coerce_state_value s.state, ?_, rfl, ?_,
    List.Sorted.insertionSort_eq hmono, fun r st i b => ⟨coerce_state_value st, ?_⟩⟩
  · exact jAnswers_round_trip s.intake.answers
  · show jTruthy (some (.jbool s.intake.completed)) = s.intake.completed
    rfl
  · exact jAnswers_round_trip i.answers

/-- Witness for claim C9 at a concrete session and a concrete ordered
message log. -/
theorem session_round_trip_witness :
    (ChatSession.from_row (db_create_session 7 scenarioASession (systemMessage 0 "q")).1).state =
      scenarioASession.state ∧
    (ChatSession.from_row (db_create_session 7 scenarioASession (systemMessage 0 "q")).1).intake.answers =
      scenarioASession.intake.answers ∧
    db_get_messages [systemMessage 1 "a", systemMessage 2 "b"] =
      [systemMessage 1 "a", systemMessage 2 "b"] := by
  have h := session_round_trip 7 scenarioASession (systemMessage 0 "q")
    [systemMessage 1 "a", systemMessage 2 "b"] (by decide)
  exact ⟨h.1, h.2.1, h.2.2.2.2.1⟩

end SmartIntake
